import Mathlib

/-!
Shallow embedding of the serenity-self gateway client library.

The Rust source files embedded here are:
- src/model/gateway.rs   (Activity, ActivityType and friends)
- src/gateway/mod.rs     (ActivityData, ConnectionStage, PresenceData, ChunkGuildFilter)
- src/gateway/error.rs   (gateway Error)
- src/client/mod.rs      (ClientBuilder, Client)
- src/client/error.rs    (client Error)

Machine integers (u8, u64, u16) are modelled as Nat; none of the embedded
operations can overflow them.  Components of the repository that exist only
as declarations or callers in the sources (the shard run loop, the heartbeat
scheduler, the reconnect controller) are modelled from the spec and marked
as such in their doc comments.
-/

/-- A parsed URL (reqwest Url), kept as its textual form; the embedding never
inspects its structure. -/
structure Url where
  text : String
deriving DecidableEq

/-- Error produced when URL parsing fails (the reqwest error of into_url). -/
structure UrlParseError where
  msg : String
deriving DecidableEq

/-- ActivityType from src/model/gateway.rs (enum_number!): the six named
variants with discriminants 0..5 plus the catch-all Unknown carrying the raw
u8 value. -/
inductive ActivityType where
  | Playing
  | Streaming
  | Listening
  | Watching
  | Custom
  | Competing
  | Unknown (value : Nat)
deriving DecidableEq

/-- The From u8 conversion declared by the serde attribute of ActivityType:
0..5 map to the named variants, anything else to Unknown (the catch-all
arm of enum_number!). -/
def ActivityType.fromU8 : Nat → ActivityType
  | 0 => .Playing
  | 1 => .Streaming
  | 2 => .Listening
  | 3 => .Watching
  | 4 => .Custom
  | 5 => .Competing
  | n => .Unknown n

/-- The Into u8 conversion of ActivityType. -/
def ActivityType.toU8 : ActivityType → Nat
  | .Playing => 0
  | .Streaming => 1
  | .Listening => 2
  | .Watching => 3
  | .Custom => 4
  | .Competing => 5
  | .Unknown n => n

/-- ActivityAssets from src/model/gateway.rs. -/
structure ActivityAssets where
  large_image : Option String
  large_text : Option String
  small_image : Option String
  small_text : Option String

/-- ActivityParty from src/model/gateway.rs. -/
structure ActivityParty where
  id : Option String
  size : Option (Nat × Nat)

/-- ActivitySecrets from src/model/gateway.rs. -/
structure ActivitySecrets where
  join : Option String
  match_ : Option String
  spectate : Option String

/-- ActivityEmoji from src/model/gateway.rs; EmojiId is a u64 snowflake. -/
structure ActivityEmoji where
  name : String
  id : Option Nat
  animated : Option Bool

/-- ActivityTimestamps from src/model/gateway.rs. -/
structure ActivityTimestamps where
  sEnd : Option Nat
  start : Option Nat

/-- ActivityButton from src/model/gateway.rs. -/
structure ActivityButton where
  label : String
  url : String

/-- Activity from src/model/gateway.rs (the cfg-gated unstable sync_id and
session_id fields are off by default and omitted).  ApplicationId is a u64
snowflake, ActivityFlags a u64 bitset. -/
structure Activity where
  application_id : Option Nat
  assets : Option ActivityAssets
  details : Option String
  flags : Option Nat
  «instance» : Option Bool
  kind : ActivityType
  name : String
  party : Option ActivityParty
  secrets : Option ActivitySecrets
  state : Option String
  emoji : Option ActivityEmoji
  timestamps : Option ActivityTimestamps
  url : Option Url
  buttons : List ActivityButton
  created_at : Nat

/-- ActivityData from src/gateway/mod.rs. -/
structure ActivityData where
  name : String
  kind : ActivityType
  state : Option String
  url : Option Url
deriving DecidableEq

/-- ActivityData::playing. -/
def ActivityData.playing (name : String) : ActivityData :=
  { name := name, kind := .Playing, state := none, url := none }

/-- ActivityData::streaming; the caller-side into_url parse result is passed
in, and its error propagates through the question-mark operator. -/
def ActivityData.streaming (name : String) (url : Except UrlParseError Url) :
    Except UrlParseError ActivityData :=
  match url with
  | .error e => .error e
  | .ok u => .ok { name := name, kind := .Streaming, state := none, url := some u }

/-- ActivityData::listening. -/
def ActivityData.listening (name : String) : ActivityData :=
  { name := name, kind := .Listening, state := none, url := none }

/-- ActivityData::watching. -/
def ActivityData.watching (name : String) : ActivityData :=
  { name := name, kind := .Watching, state := none, url := none }

/-- ActivityData::competing. -/
def ActivityData.competing (name : String) : ActivityData :=
  { name := name, kind := .Competing, state := none, url := none }

/-- ActivityData::custom: the name is the fixed placeholder and the supplied
text goes into state. -/
def ActivityData.custom (state : String) : ActivityData :=
  { name := "~", kind := .Custom, state := some state, url := none }

/-- The From Activity impl for ActivityData from src/gateway/mod.rs. -/
def ActivityData.ofActivity (activity : Activity) : ActivityData :=
  { name := activity.name
    kind := activity.kind
    state := activity.state
    url := activity.url }

/-- OnlineStatus from the user model (referenced by PresenceData). -/
inductive OnlineStatus where
  | DoNotDisturb
  | Idle
  | Invisible
  | Offline
  | Online
deriving DecidableEq

/-- PresenceData from src/gateway/mod.rs. -/
structure PresenceData where
  activity : Option ActivityData
  status : OnlineStatus

/-- ConnectionStage from src/gateway/mod.rs, in source declaration order. -/
inductive ConnectionStage where
  | Connected
  | Connecting
  | Disconnected
  | Handshake
  | Identifying
  | Resuming
deriving DecidableEq

/-- ConnectionStage::is_connecting: the matches! over the four in-progress
variants, false for everything else. -/
def ConnectionStage.is_connecting : ConnectionStage → Bool
  | .Connecting | .Handshake | .Identifying | .Resuming => true
  | _ => false

/-- ReconnectType from src/gateway/mod.rs. -/
inductive ReconnectType where
  | Reidentify
  | Resume
deriving DecidableEq

/-- ChunkGuildFilter from src/gateway/mod.rs; UserId is a u64 snowflake. -/
inductive ChunkGuildFilter where
  | None
  | Query (q : String)
  | UserIds (ids : List Nat)

/-- CloseFrame of the websocket protocol: a close code and a reason string. -/
structure CloseFrame where
  code : Nat
  reason : String
deriving DecidableEq

/-- The gateway Error from src/gateway/error.rs: nine variants, of which only
Closed carries data (the optional close frame). -/
inductive GatewayError where
  | BuildingUrl
  | Closed (frame : Option CloseFrame)
  | ExpectedHello
  | HeartbeatFailed
  | InvalidAuthentication
  | InvalidHandshake
  | NoAuthentication
  | NoSessionId
  | ReconnectFailure
deriving DecidableEq

/-- The Display strings of the gateway Error from src/gateway/error.rs. -/
def GatewayError.display : GatewayError → String
  | .BuildingUrl => "Error building url"
  | .Closed _ => "Connection closed"
  | .ExpectedHello => "Expected a Hello"
  | .HeartbeatFailed => "Failed sending a heartbeat"
  | .InvalidAuthentication => "Sent invalid authentication"
  | .InvalidHandshake => "Expected a valid Handshake"
  | .NoAuthentication => "Sent no authentication"
  | .NoSessionId => "No Session Id present when required"
  | .ReconnectFailure => "Failed to Reconnect"

/-- The client Error from src/client/error.rs: the single Shutdown variant. -/
inductive ClientError where
  | Shutdown
deriving DecidableEq

/-- Error of the HTTP request layer (reqwest / http errors), kept opaque. -/
structure HttpError where
  msg : String
deriving DecidableEq

/-- The library-level Error enum, restricted to the variants the embedded
code produces: the client error wrapper, the gateway error wrapper and the
http error wrapper. -/
inductive SerenityError where
  | Client (e : ClientError)
  | Gateway (e : GatewayError)
  | Http (e : HttpError)
deriving DecidableEq

/-- SessionStartLimit from src/model/gateway.rs. -/
structure SessionStartLimit where
  remaining : Nat
  reset_after : Nat
  total : Nat
  max_concurrency : Nat

/-- BotGateway from src/model/gateway.rs: the response of get_gateway. -/
structure BotGateway where
  url : String
  session_start_limit : SessionStartLimit

/-- ClientBuilder from src/client/mod.rs, restricted to the fields the
embedded code reads (token of the Http instance, initial presence). -/
structure ClientBuilder where
  token : String
  presence : PresenceData

/-- Client from src/client/mod.rs, restricted to the fields the embedded
code produces (the concurrency wrappers around ws_url are dropped). -/
structure Client where
  ws_url : String
  token : String

/-- The IntoFuture impl of ClientBuilder from src/client/mod.rs: the result
of the http.get_gateway() call is passed in; on its failure the well-known
default endpoint is used, and construction still succeeds. -/
def ClientBuilder.into_future (self : ClientBuilder)
    (gatewayResponse : Except HttpError BotGateway) : Except SerenityError Client :=
  let ws_url :=
    match gatewayResponse with
    | .ok response => response.url
    | .error _ => "wss://gateway.discord.gg"
  Except.ok { ws_url := ws_url, token := self.token }

/-- Client::start_connection from src/client/mod.rs: under the default
feature set (voice disabled) its body is empty and it returns Ok(())
unconditionally.  Its own doc comment promises ClientError::Shutdown when
the client shuts down due to an error, but no code in src/ ever constructs
that variant. -/
def Client.start_connection : Except SerenityError Unit :=
  Except.ok ()

/-- Client::start from src/client/mod.rs: delegates to start_connection. -/
def Client.start : Except SerenityError Unit :=
  Client.start_connection

/-- Modelled from the spec: ReconnectPolicy of section 3 (the reconnect
controller is absent from src/).  Durations and the jitter fraction are
rationals. -/
structure ReconnectPolicy where
  base_delay : ℚ
  max_delay : ℚ
  jitter_fraction : ℚ

/-- Modelled from the spec: the un-jittered part of next_delay in section
4.3, min(max_delay, base_delay * 2 ^ attempt). -/
def ReconnectPolicy.capped_delay (p : ReconnectPolicy) (attempt : Nat) : ℚ :=
  min p.max_delay (p.base_delay * 2 ^ attempt)

/-- Modelled from the spec: next_delay(attempt) of section 4.3,
min(max_delay, base_delay * 2 ^ attempt) scaled by the realized jitter
multiplier, which ranges over 1 - jitter_fraction .. 1 + jitter_fraction. -/
def ReconnectPolicy.next_delay (p : ReconnectPolicy) (attempt : Nat)
    (jitterFactor : ℚ) : ℚ :=
  p.capped_delay attempt * jitterFactor

/-- HeartbeatState of section 3 of the spec; timestamps in milliseconds. -/
structure HeartbeatState where
  interval_ms : Nat
  last_sent_at : Nat
  ack_received : Bool
deriving DecidableEq

/-- The per-shard engine state the heartbeat liveness check acts on: the
connection stage, the resumable flag, whether the transport is open, and the
heartbeat bookkeeping. -/
structure EngineState where
  stage : ConnectionStage
  resumable : Bool
  transport_open : Bool
  heartbeat : HeartbeatState
deriving DecidableEq

/-- Modelled from the spec: the heartbeat liveness check of sections 3 and
4.1 (the heartbeat scheduler and shard loop are absent from src/).  If a
second interval has elapsed since the last heartbeat send with no ack, the
engine itself closes the transport, marks the session resumable and goes
back to Connecting; otherwise the state is unchanged. -/
def heartbeat_check (s : EngineState) (now : Nat) : EngineState :=
  if s.heartbeat.ack_received = false ∧
      s.heartbeat.last_sent_at + 2 * s.heartbeat.interval_ms ≤ now then
    { s with stage := .Connecting, resumable := true, transport_open := false }
  else
    s

/-! Theorems settling the specification claims. -/

/-- Claim C1: is_connecting returns true exactly on the four in-progress
stages Connecting, Handshake, Identifying and Resuming, and false on
Connected and Disconnected. -/
theorem is_connecting_exactly_in_progress (s : ConnectionStage) :
    (s.is_connecting = true ↔
      (s = .Connecting ∨ s = .Handshake ∨ s = .Identifying ∨ s = .Resuming)) ∧
    ConnectionStage.is_connecting .Connected = false ∧
    ConnectionStage.is_connecting .Disconnected = false := by
  refine ⟨?_, rfl, rfl⟩
  cases s <;> decide

/-- Claim C2 (code bug): the claim, the spec and the doc comment of
start_connection in src/client/mod.rs all promise an error result
(ClientError::Shutdown) when a shard shuts down on a terminal condition,
but the body of start/start_connection returns Ok(()) unconditionally,
so no execution of the code can surface the Shutdown error. -/
theorem start_never_surfaces_shutdown :
    Client.start = Except.ok () ∧
    Client.start ≠ Except.error (.Client .Shutdown) := by
  refine ⟨rfl, ?_⟩
  intro h
  exact Except.noConfusion h

/-- Claim C3: the gateway error type consists of exactly the nine listed
kinds, of which only Closed carries data (an optional close frame). -/
theorem gateway_error_exactly_nine_kinds (e : GatewayError) :
    e = .BuildingUrl ∨ (∃ frame, e = .Closed frame) ∨ e = .ExpectedHello ∨
    e = .HeartbeatFailed ∨ e = .InvalidAuthentication ∨ e = .InvalidHandshake ∨
    e = .NoAuthentication ∨ e = .NoSessionId ∨ e = .ReconnectFailure := by
  cases e <;> simp

/-- Claim C4: when the request for the gateway URL fails, into_future still
succeeds and stores the well-known default endpoint as ws_url. -/
theorem into_future_falls_back_on_default (b : ClientBuilder) (err : HttpError) :
    ∃ c, ClientBuilder.into_future b (.error err) = .ok c ∧
      c.ws_url = "wss://gateway.discord.gg" :=
  ⟨_, rfl, rfl⟩

/-- Counterexample for claim C5: the conversion from the wire value 6
produces ActivityType.Unknown 6, which is distinct from all six named
alternatives, so a seventh kind is representable and produced. -/
theorem activity_type_unknown_counterexample :
    ActivityType.fromU8 6 = ActivityType.Unknown 6 ∧
    ActivityType.Unknown 6 ≠ ActivityType.Playing ∧
    ActivityType.Unknown 6 ≠ ActivityType.Streaming ∧
    ActivityType.Unknown 6 ≠ ActivityType.Listening ∧
    ActivityType.Unknown 6 ≠ ActivityType.Watching ∧
    ActivityType.Unknown 6 ≠ ActivityType.Custom ∧
    ActivityType.Unknown 6 ≠ ActivityType.Competing := by
  decide

/-- Claim C5 (amended): the activity kind is one of the six named
alternatives Playing, Streaming, Listening, Watching, Custom, Competing, or
the catch-all Unknown carrying the raw numeric value of an unrecognized
kind; the numeric conversion maps 0..5 to the named alternatives and every
other value to Unknown. -/
theorem activity_type_exhaustive (t : ActivityType) :
    (t = .Playing ∨ t = .Streaming ∨ t = .Listening ∨ t = .Watching ∨
      t = .Custom ∨ t = .Competing ∨ ∃ n, t = .Unknown n) ∧
    (ActivityType.fromU8 0 = .Playing ∧ ActivityType.fromU8 1 = .Streaming ∧
      ActivityType.fromU8 2 = .Listening ∧ ActivityType.fromU8 3 = .Watching ∧
      ActivityType.fromU8 4 = .Custom ∧ ActivityType.fromU8 5 = .Competing) ∧
    (∀ n : Nat, ActivityType.fromU8 (n + 6) = .Unknown (n + 6)) := by
  refine ⟨?_, by decide, fun n => rfl⟩
  cases t <;> simp

/-- Claim C6: across all six ActivityData constructors, url is Some exactly
for streaming and state is Some exactly for custom; all other fields of the
non-streaming, non-custom constructors are none. -/
theorem activity_constructors_url_state (n s : String) (u : Url) :
    ((ActivityData.playing n).kind = .Playing ∧
      (ActivityData.playing n).state = none ∧ (ActivityData.playing n).url = none) ∧
    ((ActivityData.listening n).kind = .Listening ∧
      (ActivityData.listening n).state = none ∧ (ActivityData.listening n).url = none) ∧
    ((ActivityData.watching n).kind = .Watching ∧
      (ActivityData.watching n).state = none ∧ (ActivityData.watching n).url = none) ∧
    ((ActivityData.competing n).kind = .Competing ∧
      (ActivityData.competing n).state = none ∧ (ActivityData.competing n).url = none) ∧
    (ActivityData.streaming n (.ok u) =
      .ok { name := n, kind := .Streaming, state := none, url := some u }) ∧
    ((ActivityData.custom s).kind = .Custom ∧
      (ActivityData.custom s).state = some s ∧ (ActivityData.custom s).url = none) :=
  ⟨⟨rfl, rfl, rfl⟩, ⟨rfl, rfl, rfl⟩, ⟨rfl, rfl, rfl⟩, ⟨rfl, rfl, rfl⟩, rfl,
    ⟨rfl, rfl, rfl⟩⟩

/-- Claim C7: next_delay(attempt) equals min(max_delay, base_delay * 2 ^
attempt) scaled by the jitter multiplier; the capped part is non-decreasing
in attempt, and the jittered delay never exceeds
max_delay * (1 + jitter_fraction). -/
theorem next_delay_contract (p : ReconnectPolicy) (attempt : Nat) (jitterFactor : ℚ)
    (hbase : 0 ≤ p.base_delay) (hmax : 0 ≤ p.max_delay)
    (hjlo : 1 - p.jitter_fraction ≤ jitterFactor)
    (hjhi : jitterFactor ≤ 1 + p.jitter_fraction)
    (hj1 : p.jitter_fraction ≤ 1) :
    p.next_delay attempt jitterFactor =
      min p.max_delay (p.base_delay * 2 ^ attempt) * jitterFactor ∧
    p.capped_delay attempt ≤ p.capped_delay (attempt + 1) ∧
    p.next_delay attempt jitterFactor ≤ p.max_delay * (1 + p.jitter_fraction) := by
  refine ⟨rfl, ?_, ?_⟩
  · refine min_le_min le_rfl ?_
    refine mul_le_mul_of_nonneg_left ?_ hbase
    exact pow_le_pow_right₀ (by norm_num) (Nat.le_succ attempt)
  · have h0jf : 0 ≤ jitterFactor := by linarith
    have hcap : p.capped_delay attempt ≤ p.max_delay := min_le_left _ _
    calc p.next_delay attempt jitterFactor
        = p.capped_delay attempt * jitterFactor := rfl
      _ ≤ p.max_delay * (1 + p.jitter_fraction) := mul_le_mul hcap hjhi h0jf hmax

/-- Witness for claim C7: the contract at base_delay 1s, max_delay 30s,
jitter fraction 1/2, attempt 2, realized jitter multiplier 3/2. -/
theorem next_delay_contract_witness :
    ReconnectPolicy.next_delay ⟨1, 30, 1/2⟩ 2 (3/2) =
      min (30 : ℚ) (1 * 2 ^ 2) * (3/2) ∧
    ReconnectPolicy.capped_delay ⟨1, 30, 1/2⟩ 2 ≤
      ReconnectPolicy.capped_delay ⟨1, 30, 1/2⟩ 3 ∧
    ReconnectPolicy.next_delay ⟨1, 30, 1/2⟩ 2 (3/2) ≤ 30 * (1 + 1/2) :=
  next_delay_contract ⟨1, 30, 1/2⟩ 2 (3/2) (by norm_num) (by norm_num)
    (by norm_num) (by norm_num) (by norm_num)

/-- Claim C8: when no ack has been received and two heartbeat intervals have
elapsed since the last send, the engine's own liveness check closes the
transport and moves to Connecting with resumable set. -/
theorem heartbeat_timeout_forces_reconnect (s : EngineState) (now : Nat)
    (hack : s.heartbeat.ack_received = false)
    (helapsed : s.heartbeat.last_sent_at + 2 * s.heartbeat.interval_ms ≤ now) :
    (heartbeat_check s now).stage = .Connecting ∧
    (heartbeat_check s now).resumable = true ∧
    (heartbeat_check s now).transport_open = false := by
  unfold heartbeat_check
  rw [if_pos ⟨hack, helapsed⟩]
  exact ⟨rfl, rfl, rfl⟩

/-- Witness for claim C8: a connected engine with interval 45000ms, last
send at 0 and no ack, checked at 90000ms, reconnects resumably. -/
theorem heartbeat_timeout_forces_reconnect_witness :
    (heartbeat_check ⟨.Connected, false, true, ⟨45000, 0, false⟩⟩ 90000).stage =
      .Connecting ∧
    (heartbeat_check ⟨.Connected, false, true, ⟨45000, 0, false⟩⟩ 90000).resumable =
      true ∧
    (heartbeat_check ⟨.Connected, false, true, ⟨45000, 0, false⟩⟩ 90000).transport_open =
      false :=
  heartbeat_timeout_forces_reconnect ⟨.Connected, false, true, ⟨45000, 0, false⟩⟩
    90000 rfl (by norm_num)

/-- Claim C9: ActivityData.custom always uses the fixed placeholder name,
the Custom kind, the supplied text as state, and no url. -/
theorem custom_activity_fields (s : String) :
    (ActivityData.custom s).name = "~" ∧
    (ActivityData.custom s).kind = .Custom ∧
    (ActivityData.custom s).state = some s ∧
    (ActivityData.custom s).url = none :=
  ⟨rfl, rfl, rfl, rfl⟩

/-- Claim C10: the conversion from a received Activity to ActivityData is
the identity on the name, kind, state and url fields. -/
theorem of_activity_preserves_fields (a : Activity) :
    (ActivityData.ofActivity a).name = a.name ∧
    (ActivityData.ofActivity a).kind = a.kind ∧
    (ActivityData.ofActivity a).state = a.state ∧
    (ActivityData.ofActivity a).url = a.url :=
  ⟨rfl, rfl, rfl, rfl⟩
